import Mathlib

/-!
Shallow embedding of the bin-prioritization / request-lifecycle engine of the
waste-management application (source: `app/shared/bin_service.py`,
`app/shared/request_service.py`, `app/shared/mitra_ai_service.py`,
`app/shared/utils.py`).

Conventions of the embedding:
* Python numeric arithmetic is modelled exactly over `ℚ` (the heuristics are
  plain rational arithmetic; no claim here depends on binary-float artifacts),
  except the Haversine distance, which uses `ℝ` because it is trigonometric.
* Python `round(x, n)` / `round(x)` use round-half-to-even; `halfEvenRound`
  and `pyRound` model that exactly on `ℚ`.
* Timestamps are modelled as rational "seconds" (`datetime` subtraction whose
  `total_seconds()` the code divides by 3600 becomes rational subtraction).
* A fallible external collaborator call is modelled as an `Option` argument:
  `some v` is a successful call returning `v`, `none` is a call that raises.
* The Mongo collections are modelled as Lean lists in insertion order;
  `find` is `List.filter`, `to_list(length=n)` is `List.take n`,
  `count_documents` is `(List.filter _).length`, `insert_many` appends.
-/

/-- Integer nearest-rounding with ties to even, as Python's builtin `round`
performs on its argument (modelled exactly on `ℚ`). -/
def halfEvenRound (q : ℚ) : ℤ :=
  if q - (⌊q⌋ : ℚ) < 1/2 then ⌊q⌋
  else if 1/2 < q - (⌊q⌋ : ℚ) then ⌊q⌋ + 1
  else if ⌊q⌋ % 2 = 0 then ⌊q⌋ else ⌊q⌋ + 1

/-- Python's `round(q, n)`: round to `n` decimal digits, ties to even. -/
def pyRound (n : ℕ) (q : ℚ) : ℚ :=
  (halfEvenRound (q * 10 ^ n) : ℚ) / 10 ^ n

theorem halfEvenRound_nonneg {q : ℚ} (h : 0 ≤ q) : 0 ≤ halfEvenRound q := by
  unfold halfEvenRound
  have hf : (0 : ℤ) ≤ ⌊q⌋ := by
    rw [Int.le_floor]
    exact_mod_cast h
  split_ifs <;> omega

theorem halfEvenRound_le {q : ℚ} {n : ℤ} (h : q ≤ (n : ℚ)) : halfEvenRound q ≤ n := by
  unfold halfEvenRound
  have hf : ⌊q⌋ ≤ n := by
    have := Int.floor_le_floor h
    simpa using this
  split_ifs with h1 h2 h3
  · exact hf
  · -- here 1/2 < q - ⌊q⌋, so ⌊q⌋ + 1/2 < q ≤ n, hence ⌊q⌋ < n
    have hlt : (⌊q⌋ : ℚ) < (n : ℚ) := by
      have := Int.floor_le q
      linarith
    have : ⌊q⌋ < n := by exact_mod_cast hlt
    omega
  · exact hf
  · have hlt : (⌊q⌋ : ℚ) < (n : ℚ) := by
      have h4 : (1:ℚ)/2 ≤ q - (⌊q⌋ : ℚ) := le_of_not_lt h1
      linarith
    have : ⌊q⌋ < n := by exact_mod_cast hlt
    omega

theorem pyRound_nonneg {q : ℚ} (n : ℕ) (h : 0 ≤ q) : 0 ≤ pyRound n q := by
  unfold pyRound
  have h1 : (0 : ℤ) ≤ halfEvenRound (q * 10 ^ n) :=
    halfEvenRound_nonneg (by positivity)
  have h2 : (0 : ℚ) ≤ (halfEvenRound (q * 10 ^ n) : ℚ) := by exact_mod_cast h1
  positivity

theorem pyRound_le {q : ℚ} {m : ℤ} (n : ℕ) (h : q ≤ (m : ℚ)) : pyRound n q ≤ (m : ℚ) := by
  unfold pyRound
  have h1 : halfEvenRound (q * 10 ^ n) ≤ m * 10 ^ n := by
    apply halfEvenRound_le
    push_cast
    have hp : (0 : ℚ) < 10 ^ n := by positivity
    exact mul_le_mul_of_nonneg_right h (le_of_lt hp)
  have hp : (0 : ℚ) < 10 ^ n := by positivity
  rw [div_le_iff₀ hp]
  exact_mod_cast h1

/-! ### Geospatial distance (`app/shared/utils.py`, `calculate_distance`)

The source converts both coordinate pairs from degrees to radians with
`math.radians`, applies the Haversine formula with `math.asin`, and scales by
the Earth radius 6371 km. -/

/-- Python's `math.radians`: degrees to radians. -/
noncomputable def toRadians (d : ℝ) : ℝ := d * (Real.pi / 180)

/-- The intermediate value `a` of the Haversine formula in `calculate_distance`:
`sin(dlat/2)**2 + cos(lat1) * cos(lat2) * sin(dlon/2)**2` (all in radians). -/
noncomputable def haversineA (lat1 lon1 lat2 lon2 : ℝ) : ℝ :=
  Real.sin ((toRadians lat2 - toRadians lat1) / 2) ^ 2 +
    Real.cos (toRadians lat1) * Real.cos (toRadians lat2) *
      Real.sin ((toRadians lon2 - toRadians lon1) / 2) ^ 2

/-- `calculate_distance(lat1, lon1, lat2, lon2)` from `app/shared/utils.py`:
`c = 2 * asin(sqrt(a))`, result `c * 6371` kilometers. -/
noncomputable def calculate_distance (lat1 lon1 lat2 lon2 : ℝ) : ℝ :=
  2 * Real.arcsin (Real.sqrt (haversineA lat1 lon1 lat2 lon2)) * 6371

theorem sin_sq_sub_swap (a b : ℝ) :
    Real.sin ((a - b) / 2) ^ 2 = Real.sin ((b - a) / 2) ^ 2 := by
  rw [show (a - b) / 2 = -((b - a) / 2) by ring, Real.sin_neg, neg_sq]

theorem haversineA_comm (lat1 lon1 lat2 lon2 : ℝ) :
    haversineA lat1 lon1 lat2 lon2 = haversineA lat2 lon2 lat1 lon1 := by
  unfold haversineA
  rw [sin_sq_sub_swap (toRadians lat2) (toRadians lat1),
    sin_sq_sub_swap (toRadians lon2) (toRadians lon1),
    mul_comm (Real.cos (toRadians lat1)) (Real.cos (toRadians lat2))]

theorem haversineA_self (lat lon : ℝ) : haversineA lat lon lat lon = 0 := by
  unfold haversineA
  simp

theorem calculate_distance_self (lat lon : ℝ) :
    calculate_distance lat lon lat lon = 0 := by
  unfold calculate_distance
  rw [haversineA_self]
  simp

theorem calculate_distance_comm (lat1 lon1 lat2 lon2 : ℝ) :
    calculate_distance lat1 lon1 lat2 lon2 = calculate_distance lat2 lon2 lat1 lon1 := by
  unfold calculate_distance
  rw [haversineA_comm]

theorem calculate_distance_equator_degree :
    calculate_distance 0 0 0 1 = 6371 * Real.pi / 180 := by
  have hpi := Real.pi_pos
  have harg : haversineA 0 0 0 1 = Real.sin (Real.pi / 360) ^ 2 := by
    unfold haversineA toRadians
    norm_num
    ring_nf
  have hnn : 0 ≤ Real.sin (Real.pi / 360) := by
    apply Real.sin_nonneg_of_nonneg_of_le_pi
    · positivity
    · nlinarith
  unfold calculate_distance
  rw [harg, Real.sqrt_sq hnn, Real.arcsin_sin (by nlinarith) (by nlinarith)]
  ring

theorem calculate_distance_equator_close :
    |calculate_distance 0 0 0 1 - 111.19| ≤ 0.5 := by
  rw [calculate_distance_equator_degree, abs_le]
  have h1 := Real.pi_gt_d6
  have h2 := Real.pi_lt_d6
  constructor <;> nlinarith

/-! ### Collection-point ("bin") data model (`app/shared/bin_service.py`)

A stored bin document, restricted to the fields the prioritization and
generation logic reads: `bin_id`, `location.area`, `location.city`,
`current_fill_level`, `last_collection_time` (nullable; seconds),
`status`, `bin_type`, and `analytics.avg_daily_waste`. -/

structure Bin where
  bin_id : String
  area : String
  city : String
  fill_level : ℚ
  last_collection_time : Option ℚ
  status : String
  bin_type : String
  avg_daily_waste : ℚ
deriving DecidableEq, Repr

/-- The `status_scores` lookup of `_calculate_real_priority`:
`{"overflowing": 20, "needs_collection": 15, "normal": 5, "maintenance": 0}`,
read with `.get(status, 5)` (default 5 for any other status). -/
def statusScores (s : String) : ℚ :=
  if s = "overflowing" then 20
  else if s = "needs_collection" then 15
  else if s = "normal" then 5
  else if s = "maintenance" then 0
  else 5

/-- `_calculate_real_priority(bin_data)`.  `now` is the reading instant
(`datetime.utcnow()`), in seconds; `hours_since = (now - t) / 3600`. -/
def calculateRealPriority (now : ℚ) (b : Bin) : ℚ :=
  let score : ℚ := (b.fill_level / 100) * 40
  let score := score +
    (match b.last_collection_time with
     | some t => min 30 ((now - t) / 3600 / 24 * 10)
     | none => 30)
  let score := score + statusScores b.status
  let score := score + min 10 (b.avg_daily_waste / 5)
  pyRound 2 score

/-- `_calculate_real_earnings(bin_data)`: base pay 150, fill bonus
`max(0, (fill_level - 50) * 2)`, bin-type bonus lookup (default 0),
status-urgency bonus lookup (default 0), total rounded to integer. -/
def calculateRealEarnings (b : Bin) : ℤ :=
  let base : ℚ := 150
  let fill_bonus : ℚ := max 0 ((b.fill_level - 50) * 2)
  let type_bonus : ℚ :=
    if b.bin_type = "commercial" then 50
    else if b.bin_type = "medical" then 100
    else if b.bin_type = "office" then 30
    else if b.bin_type = "residential" then 0
    else 0
  let urgency_bonus : ℚ :=
    if b.status = "overflowing" then 100
    else if b.status = "needs_collection" then 50
    else if b.status = "normal" then 0
    else 0
  halfEvenRound (base + fill_bonus + type_bonus + urgency_bonus)

/-- Literal helpers used in identifier construction. -/
def spaceStr : String := " "

def emptyStr : String := ""

def underscoreStr : String := "_"

/-- Python's `str.zfill(w)` for non-negative numerals: left-pad with zeros. -/
def zfill (w : ℕ) (s : String) : String :=
  String.mk (List.replicate (w - s.length) '0') ++ s

/-- The Mongo filter of `get_priority_bins_for_collection` (inside the area
match): `current_fill_level >= 75`, or `status == "needs_collection"`, or
`status == "overflowing"`, or `last_collection_time < utcnow() - 2 days`
(a null / absent timestamp never matches the `$lt` comparison). -/
def needsCollectionQuery (now : ℚ) (b : Bin) : Bool :=
  decide (75 ≤ b.fill_level) ||
    b.status == "needs_collection" ||
    b.status == "overflowing" ||
    (match b.last_collection_time with
     | some t => decide (t < now - 172800)
     | none => false)

/-- `get_priority_bins_for_collection(worker_location)`: query the area's bins
with the qualification filter, fetch at most 50 (`to_list(length=50)`), then
stable-sort descending by `_calculate_real_priority` (Python `list.sort` with
`key=priority_score, reverse=True`). -/
def getPriorityBinsForCollection (now : ℚ) (area city : String) (bins : List Bin) :
    List Bin :=
  ((bins.filter fun b =>
      b.area == area && b.city == city && needsCollectionQuery now b).take 50).mergeSort
    fun a b => decide (calculateRealPriority now b ≤ calculateRealPriority now a)

/-- `get_bins_in_area(area, city)`: all bins of the (area, city) pair, fetched
with `to_list(length=100)`. -/
def getBinsInArea (bins : List Bin) (area city : String) : List Bin :=
  (bins.filter fun b => b.area == area && b.city == city).take 100

/-- One bin document built by `_generate_area_bins` (restricted to the modelled
fields): id `BIN_<CITY>_<AAA>_<NNN>`, the worker's area and city, fill level 0,
no collection yet, status `"active"`, zero historical average. `i` is the index
in the generated batch, `bt` the bin type chosen for the landmark. -/
def makeGeneratedBin (area city : String) (i : ℕ) (bt : String) : Bin :=
  { bin_id := "BIN_" ++ city.toUpper ++ underscoreStr ++
      ((area.replace spaceStr emptyStr).take 3).toUpper ++ underscoreStr ++
      zfill 3 (toString (i + 1)),
    area := area
    city := city
    fill_level := 0
    last_collection_time := none
    status := "active"
    bin_type := bt
    avg_daily_waste := 0 }

/-- `_generate_area_bins(worker_location)`: one generated bin per randomly
drawn location.  The random draws (count and per-location bin types) are
modelled by the `bts` argument, one entry per generated location. -/
def generateAreaBins (area city : String) (bts : List String) : List Bin :=
  bts.enum.map fun p => makeGeneratedBin area city p.1 p.2

/-- `create_bins_for_new_worker(worker_data)`: count the documents of the
(area, city) pair; if any exist return `get_bins_in_area` and insert nothing,
otherwise generate a batch and `insert_many` it.  Returns (result, new state of
the `bins` collection). -/
def createBinsForNewWorker (bts : List String) (dbBins : List Bin)
    (area city : String) : List Bin × List Bin :=
  if 0 < (dbBins.filter fun b => b.area == area && b.city == city).length then
    (getBinsInArea dbBins area city, dbBins)
  else
    (generateAreaBins area city bts, dbBins ++ generateAreaBins area city bts)

/-! ### Environmental impact (`app/shared/request_service.py`,
`_calculate_environmental_impact`) -/

/-- The computed impact summary (the `recycling_value` passthrough field is
copied from the completion payload). -/
structure EnvironmentalImpact where
  waste_collected_kg : ℚ
  co2_saved_kg : ℚ
  trees_equivalent : ℚ
  water_saved_liters : ℚ
  recycling_value : ℚ
  environmental_score : ℚ
deriving DecidableEq, Repr

/-- The `impact_factors` lookup: per-kg (CO2, trees) pairs for
plastic / organic / e_waste / mixed, read with `.get(waste_type,
impact_factors["mixed"])` (any unknown category falls back to mixed). -/
def impactFactors (t : String) : ℚ × ℚ :=
  if t = "plastic" then (5/2, 1/10)
  else if t = "organic" then (6/5, 1/20)
  else if t = "e_waste" then (4, 1/5)
  else if t = "mixed" then (2, 2/25)
  else (2, 2/25)

/-- `_calculate_environmental_impact(completion_data)`: multiply the collected
weight by the category factors, apply the 1.5x CO2 / 1.3x trees recycling
bonus, round CO2 and trees to 2 decimals, water (`15 l/kg`) and the score to
1 decimal. -/
def calculateEnvironmentalImpact (waste_collected : ℚ) (waste_type : String)
    (recycled : Bool) (recycling_value : ℚ) : EnvironmentalImpact :=
  let factors := impactFactors waste_type
  let co2_saved := waste_collected * factors.1
  let trees_equivalent := waste_collected * factors.2
  let co2_saved := if recycled then co2_saved * (3/2) else co2_saved
  let trees_equivalent := if recycled then trees_equivalent * (13/10) else trees_equivalent
  { waste_collected_kg := waste_collected
    co2_saved_kg := pyRound 2 co2_saved
    trees_equivalent := pyRound 2 trees_equivalent
    water_saved_liters := pyRound 1 (waste_collected * 15)
    recycling_value := recycling_value
    environmental_score := pyRound 1 (co2_saved + trees_equivalent * 10) }

/-! ### MITRA timeline messages (`app/shared/mitra_ai_service.py`) -/

/-- Python's `str.title()` restricted to space-separated words, as applied to
`step.replace('_', ' ')` in the fallback default: first letter of each word
uppercased, the rest lowercased. -/
def pyTitle (s : String) : String :=
  String.intercalate spaceStr ((s.splitOn spaceStr).map fun w => w.toLower.capitalize)

/-- `_get_fallback_message(user_type, step)`: the fixed per-role, per-step
fallback strings, with default `"🤖 MITRA: <Step Name> update"` when the role
or the step has no entry. -/
def getFallbackMessage (user_type step : String) : String :=
  if user_type = "citizen" then
    if step = "submitted" then "🌱 MITRA: Request received! Processing..."
    else if step = "ai_analyzing" then "🤖 MITRA: Analyzing images..."
    else if step = "worker_matching" then "🔍 MITRA: Finding CleanGuard..."
    else if step = "completed" then "✅ MITRA: Great job! Dharani thanks you!"
    else "🤖 MITRA: " ++ pyTitle (step.replace underscoreStr spaceStr) ++ " update"
  else if user_type = "worker" then
    if step = "job_available" then "🔔 MITRA: New job available!"
    else if step = "job_accepted" then "✅ MITRA: Job accepted! Navigate to location."
    else if step = "completed" then "💰 MITRA: Payment credited! Well done!"
    else "🤖 MITRA: " ++ pyTitle (step.replace underscoreStr spaceStr) ++ " update"
  else if user_type = "government" then
    if step = "daily_summary" then "📊 MITRA: Daily report ready."
    else if step = "efficiency_update" then "📈 MITRA: Performance metrics updated."
    else "🤖 MITRA: " ++ pyTitle (step.replace underscoreStr spaceStr) ++ " update"
  else "🤖 MITRA: " ++ pyTitle (step.replace underscoreStr spaceStr) ++ " update"

/-- `generate_timeline_message(user_type, step, context)`: call the external
text-generation collaborator and return its stripped reply; if anything in the
try-block raises (the collaborator call included), return
`_get_fallback_message(user_type, step)` instead.  The collaborator outcome is
the `llm` argument (`none` = the call raised). -/
def generateTimelineMessage (llm : Option String) (user_type step : String) : String :=
  match llm with
  | some content => content.trim
  | none => getFallbackMessage user_type step

/-! ### Request timeline (`app/shared/request_service.py`) -/

/-- One entry of a request's `steps` array, as written by
`_initialize_ai_timeline` / `_add_timeline_step` (the structured `context`
payload is abstracted to a string). -/
structure TimelineStep where
  step : String
  ai_message : String
  details : String
  user_visible : Bool
  worker_visible : Bool
  government_visible : Bool
  processing_time : ℚ
deriving DecidableEq, Repr

/-- A `request_timelines` document. -/
structure TimelineDoc where
  request_id : String
  user_id : String
  steps : List TimelineStep
  current_step : String
deriving DecidableEq, Repr

/-- Per-role visibility triple. -/
structure StepVisibility where
  user : Bool
  worker : Bool
  government : Bool
deriving DecidableEq, Repr

/-- `_get_step_visibility(step)`: the fixed `visibility_map`, default all-true. -/
def getStepVisibility (step : String) : StepVisibility :=
  if step = "submitted" then ⟨true, false, true⟩
  else if step = "ai_analyzing" then ⟨true, false, true⟩
  else if step = "worker_matching" then ⟨true, true, true⟩
  else if step = "worker_assigned" then ⟨true, true, true⟩
  else if step = "en_route" then ⟨true, true, true⟩
  else if step = "arrived" then ⟨true, true, true⟩
  else if step = "cleanup_started" then ⟨true, true, true⟩
  else if step = "completed" then ⟨true, true, true⟩
  else if step = "payment_processed" then ⟨false, true, true⟩
  else ⟨true, true, true⟩

/-- `_get_processing_time(step)`: fixed pacing values, default 0.5. -/
def getProcessingTime (step : String) : ℚ :=
  if step = "submitted" then 1/2
  else if step = "ai_analyzing" then 5/2
  else if step = "worker_matching" then 3/2
  else if step = "worker_assigned" then 4/5
  else if step = "en_route" then 3/10
  else if step = "arrived" then 1/2
  else if step = "cleanup_started" then 1/2
  else if step = "completed" then 1
  else if step = "payment_processed" then 6/5
  else 1/2

/-- `_add_timeline_step(request_id, step, user_type, context)`: generate the
step message (fallback on collaborator failure), look up the fixed visibility
triple, and `$push` the new entry while setting `current_step`. -/
def addTimelineStep (llm : Option String) (tl : TimelineDoc) (step user_type : String) :
    TimelineDoc :=
  let msg := generateTimelineMessage llm user_type step
  let vis := getStepVisibility step
  let entry : TimelineStep :=
    { step := step
      ai_message := msg
      details := "System processing: " ++ pyTitle (step.replace underscoreStr spaceStr)
      user_visible := vis.user
      worker_visible := vis.worker
      government_visible := vis.government
      processing_time := getProcessingTime step }
  { tl with steps := tl.steps ++ [entry], current_step := step }

/-- The per-entry visibility lookup of `get_request_timeline`:
`step.get(f"{user_type}_visible", True)`.  An entry document holds exactly the
keys `user_visible`, `worker_visible` and `government_visible`; any other key
falls back to the dictionary default `True`. -/
def stepVisibleFor (s : TimelineStep) (key : String) : Bool :=
  if key = "user_visible" then s.user_visible
  else if key = "worker_visible" then s.worker_visible
  else if key = "government_visible" then s.government_visible
  else true

/-- `get_request_timeline(request_id, user_type)`: find the timeline document
and keep the steps whose `f"{user_type}_visible"` flag is true (default true
when the key is absent); `[]` when no document matches. -/
def getRequestTimeline (docs : List TimelineDoc) (request_id user_type : String) :
    List TimelineStep :=
  match docs.find? (fun d => d.request_id == request_id) with
  | none => []
  | some d => d.steps.filter fun s => stepVisibleFor s (user_type ++ "_visible")

/-! ### Request status and progress (`app/shared/request_service.py`) -/

/-- A `service_requests` document, restricted to the fields the status logic
touches. -/
structure RequestDoc where
  request_id : String
  user_id : String
  user_type : String
  status : String
deriving DecidableEq, Repr

/-- `_update_request_status(request_id, status)`: unconditional `$set` of the
`status` field. -/
def updateRequestStatus (r : RequestDoc) (status : String) : RequestDoc :=
  { r with status := status }

/-- `update_request_progress(request_id, step, data, user_type)`: append the
timeline step, then set the request status to `step`; when the step is
`"completed"`, `_handle_request_completion` additionally persists the
completion payload and sets the status to `"completed"` once more. -/
def updateRequestProgress (llm : Option String) (tl : TimelineDoc) (r : RequestDoc)
    (step user_type : String) : TimelineDoc × RequestDoc :=
  let tl1 := addTimelineStep llm tl step user_type
  let r1 := updateRequestStatus r step
  let r2 := if step = "completed" then updateRequestStatus r1 "completed" else r1
  (tl1, r2)

/-- Position of a step name in the fixed lifecycle sequence, in the order the
source lists the steps (the key order of `_get_processing_time` /
`_get_step_visibility`); unknown names map to 0. -/
def statusIndex (s : String) : ℕ :=
  if s = "submitted" then 0
  else if s = "ai_analyzing" then 1
  else if s = "worker_matching" then 2
  else if s = "worker_assigned" then 3
  else if s = "en_route" then 4
  else if s = "arrived" then 5
  else if s = "cleanup_started" then 6
  else if s = "completed" then 7
  else if s = "payment_processed" then 8
  else 0

/-! ### Request-ID generation (`app/shared/request_service.py`,
`_generate_request_id`) -/

/-- `_generate_request_id()`: count the year's requests and produce
`WR_<year>_<zero-padded count + 1>`; if the counting query raises
(`countResult = none`), fall back to `WR_<year>_<first 8 uuid chars,
uppercased>` instead of propagating the failure.  `uuidStr` models the random
`str(uuid.uuid4())` draw. -/
def generateRequestId (year : ℕ) (countResult : Option ℕ) (uuidStr : String) : String :=
  match countResult with
  | some count => "WR_" ++ toString year ++ underscoreStr ++ zfill 3 (toString (count + 1))
  | none => "WR_" ++ toString year ++ underscoreStr ++ (uuidStr.take 8).toUpper

/-! ### Named string constants (status / role / step literals of the source) -/

def stOverflowing : String := "overflowing"

def stNeedsCollection : String := "needs_collection"

def stNormal : String := "normal"

def stMaintenance : String := "maintenance"

def stActive : String := "active"

def roleCitizen : String := "citizen"

def roleWorker : String := "worker"

def roleGovernment : String := "government"

def stepSubmitted : String := "submitted"

def stepAnalyzing : String := "ai_analyzing"

def stepWorkerAssigned : String := "worker_assigned"

def stepEnRoute : String := "en_route"

def stepCompleted : String := "completed"

def stepPayment : String := "payment_processed"

/-! ### C1: priority score components and bounds -/

theorem statusScores_bounds (s : String) : 0 ≤ statusScores s ∧ statusScores s ≤ 20 := by
  unfold statusScores
  split_ifs <;> norm_num

/-- C1: for every bin record with fill level in [0,100], a status string, an
optional last-collection timestamp not later than the read time and a
non-negative historical average daily waste, the priority score is the sum of
the fill component `(fill/100)*40`, the staleness component (`min(30,
hours/24*10)` with a timestamp, flat 30 without), the status lookup
(overflowing 20, needs_collection 15, normal 5, maintenance 0) and the history
component `min(10, avg/5)`, rounded to 2 decimals, and lies in [0, 100]. -/
theorem priority_score_components_and_bounds (now : ℚ) (b : Bin)
    (hf0 : 0 ≤ b.fill_level) (hf1 : b.fill_level ≤ 100)
    (ht : ∀ t ∈ b.last_collection_time, t ≤ now)
    (ha : 0 ≤ b.avg_daily_waste) :
    calculateRealPriority now b =
      pyRound 2 ((b.fill_level / 100) * 40 +
        (match b.last_collection_time with
         | some t => min 30 ((now - t) / 3600 / 24 * 10)
         | none => 30) +
        statusScores b.status + min 10 (b.avg_daily_waste / 5)) ∧
    0 ≤ calculateRealPriority now b ∧ calculateRealPriority now b ≤ 100 ∧
    statusScores stOverflowing = 20 ∧ statusScores stNeedsCollection = 15 ∧
    statusScores stNormal = 5 ∧ statusScores stMaintenance = 0 := by
  have hstale : 0 ≤ (match b.last_collection_time with
      | some t => min 30 ((now - t) / 3600 / 24 * 10)
      | none => (30 : ℚ)) ∧
      (match b.last_collection_time with
      | some t => min 30 ((now - t) / 3600 / 24 * 10)
      | none => (30 : ℚ)) ≤ 30 := by
    cases hb : b.last_collection_time with
    | none => norm_num
    | some t =>
      have htt : t ≤ now := ht t (by rw [hb]; rfl)
      have hd : (0 : ℚ) ≤ (now - t) / 3600 / 24 * 10 := by
        have : (0 : ℚ) ≤ now - t := by linarith
        positivity
      exact ⟨le_min (by norm_num) hd, min_le_left _ _⟩
  have hstat := statusScores_bounds b.status
  have hhist : 0 ≤ min 10 (b.avg_daily_waste / 5) ∧
      min 10 (b.avg_daily_waste / 5) ≤ 10 :=
    ⟨le_min (by norm_num) (by positivity), min_le_left _ _⟩
  have hfillc : 0 ≤ (b.fill_level / 100) * 40 ∧ (b.fill_level / 100) * 40 ≤ 40 := by
    constructor <;> [positivity; linarith]
  refine ⟨rfl, ?_, ?_, by decide, by decide, by decide, by decide⟩
  · unfold calculateRealPriority
    apply pyRound_nonneg
    linarith [hstale.1, hstat.1, hhist.1, hfillc.1]
  · unfold calculateRealPriority
    have h100 : ((100 : ℤ) : ℚ) = 100 := by norm_num
    rw [← h100]
    apply pyRound_le
    rw [h100]
    linarith [hstale.2, hstat.2, hhist.2, hfillc.2]

/-- Concrete bin used to instantiate C1. -/
def wPriorityBin : Bin :=
  { bin_id := "BIN_W1"
    area := "Test Colony"
    city := "Vijayawada"
    fill_level := 80
    last_collection_time := some 0
    status := stOverflowing
    bin_type := "commercial"
    avg_daily_waste := 12 }

theorem priority_score_components_and_bounds_witness :
    0 ≤ calculateRealPriority 360000 wPriorityBin ∧
      calculateRealPriority 360000 wPriorityBin ≤ 100 :=
  ⟨(priority_score_components_and_bounds 360000 wPriorityBin (by norm_num [wPriorityBin])
      (by norm_num [wPriorityBin]) (by intro t htl; simp [wPriorityBin] at htl; norm_num [← htl])
      (by norm_num [wPriorityBin])).2.1,
   (priority_score_components_and_bounds 360000 wPriorityBin (by norm_num [wPriorityBin])
      (by norm_num [wPriorityBin]) (by intro t htl; simp [wPriorityBin] at htl; norm_num [← htl])
      (by norm_num [wPriorityBin])).2.2.1⟩

/-! ### C10: unrecognized statuses behave like "normal" -/

/-- C10: both scoring functions are total over arbitrary status strings; any
status outside the recognized keys (overflowing, needs_collection, normal,
maintenance) gets the default 5 status-urgency points in the priority score
and a 0 urgency bonus in the earnings estimate — exactly the values the
`"normal"` status gets — and every bin built by `_generate_area_bins` starts
with status `"active"`, which is such an unrecognized status. -/
theorem unrecognized_status_like_normal (now : ℚ) (b : Bin) (s : String)
    (h1 : s ≠ stOverflowing) (h2 : s ≠ stNeedsCollection)
    (h3 : s ≠ stNormal) (h4 : s ≠ stMaintenance) :
    statusScores s = 5 ∧
    calculateRealPriority now { b with status := s } =
      calculateRealPriority now { b with status := stNormal } ∧
    calculateRealEarnings { b with status := s } =
      calculateRealEarnings { b with status := stNormal } ∧
    (∀ area city i bt, (makeGeneratedBin area city i bt).status = stActive) := by
  have h1' : s ≠ "overflowing" := h1
  have h2' : s ≠ "needs_collection" := h2
  have h3' : s ≠ "normal" := h3
  have h4' : s ≠ "maintenance" := h4
  have hs5 : statusScores s = 5 := by
    unfold statusScores
    rw [if_neg h1', if_neg h2', if_neg h3', if_neg h4']
  have hsn : statusScores stNormal = 5 := by decide
  refine ⟨hs5, ?_, ?_, fun area city i bt => rfl⟩
  · unfold calculateRealPriority
    dsimp only
    rw [hs5, hsn]
  · unfold calculateRealEarnings
    dsimp only
    rw [if_neg h1', if_neg h2', if_neg h3']
    simp [stNormal]

theorem unrecognized_status_like_normal_witness :
    statusScores stActive = 5 ∧
    calculateRealPriority 0 { wPriorityBin with status := stActive } =
      calculateRealPriority 0 { wPriorityBin with status := stNormal } ∧
    calculateRealEarnings { wPriorityBin with status := stActive } =
      calculateRealEarnings { wPriorityBin with status := stNormal } ∧
    (∀ area city i bt, (makeGeneratedBin area city i bt).status = stActive) :=
  unrecognized_status_like_normal 0 wPriorityBin stActive (by decide) (by decide)
    (by decide) (by decide)

/-! ### C4: environmental-impact summary -/

def catPlastic : String := "plastic"

def catOrganic : String := "organic"

def catEWaste : String := "e_waste"

def catMixed : String := "mixed"

/-- A waste category outside the `impact_factors` lookup, used to exhibit the
mixed-category fallback. -/
def catGlass : String := "glass"

/-- C4: the impact summary multiplies the collected weight by the category's
CO2 factor (plastic 2.5, organic 1.2, e_waste 4.0, mixed 2.0 — the same
default applying to unknown categories such as "glass") and trees factor
(0.1 / 0.05 / 0.2 / 0.08), applies the 1.5x CO2 and 1.3x trees bonus when
recycled, rounds both to 2 decimals, and computes water as `15 l × kg`
rounded to 1 decimal; 2.5 kg of plastic, not recycled, yields co2 6.25,
trees 0.25, water 37.5. -/
theorem environmental_impact_formula (w : ℚ) (t : String) (r : Bool) (rv : ℚ) :
    (calculateEnvironmentalImpact w t r rv).co2_saved_kg =
      pyRound 2 (w * (impactFactors t).1 * (if r then (3:ℚ)/2 else 1)) ∧
    (calculateEnvironmentalImpact w t r rv).trees_equivalent =
      pyRound 2 (w * (impactFactors t).2 * (if r then (13:ℚ)/10 else 1)) ∧
    (calculateEnvironmentalImpact w t r rv).water_saved_liters =
      pyRound 1 (15 * w) ∧
    impactFactors catPlastic = (5/2, 1/10) ∧
    impactFactors catOrganic = (6/5, 1/20) ∧
    impactFactors catEWaste = (4, 1/5) ∧
    impactFactors catMixed = (2, 2/25) ∧
    impactFactors catGlass = (2, 2/25) ∧
    calculateEnvironmentalImpact (5/2) catPlastic false 0 =
      { waste_collected_kg := 5/2
        co2_saved_kg := 25/4
        trees_equivalent := 1/4
        water_saved_liters := 75/2
        recycling_value := 0
        environmental_score := 44/5 } := by
  refine ⟨?_, ?_, ?_, by norm_num +decide [impactFactors, catPlastic],
    by norm_num +decide [impactFactors, catOrganic],
    by norm_num +decide [impactFactors, catEWaste],
    by norm_num +decide [impactFactors, catMixed],
    by norm_num +decide [impactFactors, catGlass],
    by norm_num +decide [calculateEnvironmentalImpact, impactFactors, catPlastic, pyRound,
      halfEvenRound, EnvironmentalImpact.mk.injEq]⟩
  · cases r with
    | false =>
      show pyRound 2 (w * (impactFactors t).1) =
        pyRound 2 (w * (impactFactors t).1 * 1)
      rw [mul_one]
    | true => rfl
  · cases r with
    | false =>
      show pyRound 2 (w * (impactFactors t).2) =
        pyRound 2 (w * (impactFactors t).2 * 1)
      rw [mul_one]
    | true => rfl
  · show pyRound 1 (w * 15) = pyRound 1 (15 * w)
    rw [mul_comm]

/-! ### C9: request-ID generation -/

theorem zfill_length (w : ℕ) (s : String) : (zfill w s).length = max w s.length := by
  unfold zfill
  simp [String.length_append]
  omega

/-- C9: request-ID generation is total over both counting outcomes: a
successful count yields `WR_<year>_<count+1 zero-padded to 3 digits>`, a
failed counting query falls back to `WR_<year>_<8 uppercased uuid chars>`
instead of raising; e.g. counts 0 and 122 in 2025 give `WR_2025_001` and
`WR_2025_123`. -/
theorem request_id_generation (year count : ℕ) (u : String) :
    generateRequestId year (some count) u =
      "WR_" ++ toString year ++ underscoreStr ++ zfill 3 (toString (count + 1)) ∧
    generateRequestId year none u =
      "WR_" ++ toString year ++ underscoreStr ++ (u.take 8).toUpper ∧
    (zfill 3 (toString (count + 1))).length = max 3 (toString (count + 1)).length ∧
    generateRequestId 2025 (some 0) u = "WR_2025_001" ∧
    generateRequestId 2025 (some 122) u = "WR_2025_123" :=
  ⟨rfl, rfl, zfill_length 3 (toString (count + 1)), rfl, rfl⟩

/-! ### C6: text-generation failure never propagates -/

/-- C6: when the text-generation collaborator raises (`llm = none`), the
timeline message is the fixed fallback string for the (role, step) pair, the
entry is still appended (`current_step` advances to the step), a subsequent
step is still appended after the failure, and a failure during "submitted" for
the submitting citizen yields the fixed "submitted" fallback string. -/
theorem generation_failure_fallback (tl : TimelineDoc) (llm2 : Option String)
    (ut step : String) :
    generateTimelineMessage none ut step = getFallbackMessage ut step ∧
    (addTimelineStep none tl step ut).steps.length = tl.steps.length + 1 ∧
    ((addTimelineStep none tl step ut).steps.getLast?.map TimelineStep.ai_message) =
      some (getFallbackMessage ut step) ∧
    (addTimelineStep none tl step ut).current_step = step ∧
    (addTimelineStep llm2 (addTimelineStep none tl stepSubmitted ut)
        stepAnalyzing ut).steps.length = tl.steps.length + 2 ∧
    generateTimelineMessage none roleCitizen stepSubmitted =
      "🌱 MITRA: Request received! Processing..." := by
  refine ⟨rfl, ?_, ?_, rfl, ?_, by decide⟩
  · simp [addTimelineStep]
  · simp [addTimelineStep, generateTimelineMessage]
  · simp [addTimelineStep]

/-! ### C7: request status under progress updates -/

/-- A request that has already reached the end of the lifecycle sequence. -/
def cexCompletedRequest : RequestDoc :=
  { request_id := "WR_2025_001"
    user_id := "u1"
    user_type := roleCitizen
    status := stepCompleted }

/-- Timeline document of that request. -/
def cexTimeline : TimelineDoc :=
  { request_id := "WR_2025_001"
    user_id := "u1"
    steps := []
    current_step := stepCompleted }

/-- C7 counterexample: a worker progress update with step "submitted" applied
to a request whose status is "completed" moves the status back to "submitted",
which is strictly earlier in the fixed lifecycle sequence — the status read
after the operation is earlier than the status read before it. -/
theorem status_can_move_backward :
    (updateRequestProgress none cexTimeline cexCompletedRequest stepSubmitted
        roleWorker).2.status = stepSubmitted ∧
    statusIndex ((updateRequestProgress none cexTimeline cexCompletedRequest
        stepSubmitted roleWorker).2.status) < statusIndex cexCompletedRequest.status := by
  refine ⟨rfl, ?_⟩
  decide

/-- C7 amended: `update_request_progress` sets the status field to the
supplied step unconditionally, so the status never moves backward exactly when
the supplied step is at least as far along the fixed sequence as the current
status; under that hypothesis the status index never decreases. -/
theorem update_progress_sets_status (llm : Option String) (tl : TimelineDoc)
    (r : RequestDoc) (step ut : String)
    (h : statusIndex r.status ≤ statusIndex step) :
    (updateRequestProgress llm tl r step ut).2.status = step ∧
    statusIndex r.status ≤
      statusIndex (updateRequestProgress llm tl r step ut).2.status := by
  have hs : (updateRequestProgress llm tl r step ut).2.status = step := by
    unfold updateRequestProgress updateRequestStatus
    dsimp only
    split_ifs with hc
    · exact hc.symm
    · rfl
  exact ⟨hs, by rw [hs]; exact h⟩

theorem update_progress_sets_status_witness :
    (updateRequestProgress none cexTimeline
        { cexCompletedRequest with status := stepSubmitted } stepWorkerAssigned
        roleWorker).2.status = stepWorkerAssigned ∧
    statusIndex ({ cexCompletedRequest with status := stepSubmitted }).status ≤
      statusIndex (updateRequestProgress none cexTimeline
        { cexCompletedRequest with status := stepSubmitted } stepWorkerAssigned
        roleWorker).2.status :=
  update_progress_sets_status none cexTimeline
    { cexCompletedRequest with status := stepSubmitted } stepWorkerAssigned
    roleWorker (by decide)

/-! ### C8: role-filtered timeline queries -/

def ridBug : String := "WR_2025_001"

/-- A stored entry whose visibility triple hides it from the submitter
(`payment_processed` is written with `user_visible = False`). -/
def hiddenPaymentStep : TimelineStep :=
  { step := stepPayment
    ai_message := "Payment credited"
    details := "System processing: Payment Processed"
    user_visible := false
    worker_visible := true
    government_visible := true
    processing_time := 6/5 }

def cexBugTimeline : TimelineDoc :=
  { request_id := ridBug
    user_id := "u1"
    steps := [hiddenPaymentStep]
    current_step := stepPayment }

/-- C8 (code bug exhibited): the role key used by `get_request_timeline` is
`f"{user_type}_visible"`; entries only store `user_visible` /
`worker_visible` / `government_visible`, so for the submitter role "citizen"
the lookup key `citizen_visible` is absent, the dictionary default `True`
applies, and the query returns every entry — here an entry whose submitter
visibility flag is false — while an exact filter by the submitter flag would
return none.  The worker and government roles are filtered as the claim
states. -/
theorem citizen_timeline_ignores_visibility :
    getRequestTimeline [cexBugTimeline] ridBug roleCitizen = [hiddenPaymentStep] ∧
    hiddenPaymentStep.user_visible = false ∧
    cexBugTimeline.steps.filter (fun s => s.user_visible) = [] ∧
    getRequestTimeline [cexBugTimeline] ridBug roleWorker = [hiddenPaymentStep] ∧
    getRequestTimeline [cexBugTimeline] ridBug roleGovernment = [hiddenPaymentStep] := by
  refine ⟨?_, rfl, rfl, ?_, ?_⟩ <;> rfl

/-! ### C3: Haversine distance properties -/

/-- C3: for coordinates within the valid ranges, the distance from a point to
itself is 0, the distance is symmetric in its two points, and the distance
between (0,0) and (0,1) is within 0.5 km of 111.19 km. -/
theorem haversine_properties (lat1 lon1 lat2 lon2 : ℝ)
    (_h1 : -90 ≤ lat1) (_h2 : lat1 ≤ 90) (_h3 : -180 ≤ lon1) (_h4 : lon1 ≤ 180)
    (_h5 : -90 ≤ lat2) (_h6 : lat2 ≤ 90) (_h7 : -180 ≤ lon2) (_h8 : lon2 ≤ 180) :
    calculate_distance lat1 lon1 lat1 lon1 = 0 ∧
    calculate_distance lat1 lon1 lat2 lon2 = calculate_distance lat2 lon2 lat1 lon1 ∧
    |calculate_distance 0 0 0 1 - 111.19| ≤ 0.5 :=
  ⟨calculate_distance_self lat1 lon1, calculate_distance_comm lat1 lon1 lat2 lon2,
    calculate_distance_equator_close⟩

theorem haversine_properties_witness :
    calculate_distance 0 0 0 0 = 0 ∧
    calculate_distance 0 0 0 1 = calculate_distance 0 1 0 0 ∧
    |calculate_distance 0 0 0 1 - 111.19| ≤ 0.5 :=
  haversine_properties 0 0 0 1 (by norm_num) (by norm_num) (by norm_num)
    (by norm_num) (by norm_num) (by norm_num) (by norm_num) (by norm_num)

/-! ### C2: the priority-bin query -/

def areaA : String := "A"

def cityC : String := "C"

/-- C2 amended: when at most 50 bins qualify, the priority query returns
exactly the qualifying bins of the area — fill level >= 75, or status
needs_collection / overflowing, or a last collection more than 48 hours ago —
as a permutation of the filtered collection, and the returned list is sorted
in descending order of the computed priority score. -/
theorem priority_bins_filter_and_sort (now : ℚ) (area city : String)
    (bins : List Bin)
    (h : (bins.filter fun b =>
        b.area == area && b.city == city && needsCollectionQuery now b).length ≤ 50) :
    (getPriorityBinsForCollection now area city bins).Perm
      (bins.filter fun b =>
        b.area == area && b.city == city && needsCollectionQuery now b) ∧
    (getPriorityBinsForCollection now area city bins).Pairwise
      (fun a b => calculateRealPriority now b ≤ calculateRealPriority now a) := by
  constructor
  · unfold getPriorityBinsForCollection
    rw [List.take_of_length_le h]
    exact List.mergeSort_perm _ _
  · unfold getPriorityBinsForCollection
    have hp := @List.sorted_mergeSort Bin
      (fun a b => decide (calculateRealPriority now b ≤ calculateRealPriority now a))
      (by
        intro a b c hab hbc
        simp only [decide_eq_true_eq] at *
        exact le_trans hbc hab)
      (by
        intro a b
        simp only [Bool.or_eq_true, decide_eq_true_eq]
        exact le_total _ _)
      ((bins.filter fun b =>
        b.area == area && b.city == city && needsCollectionQuery now b).take 50)
    exact hp.imp fun hab => of_decide_eq_true hab

/-- A qualifying bin (fill level 100) used for the C2 instances. -/
def cexManyBin : Bin :=
  { bin_id := "B"
    area := areaA
    city := cityC
    fill_level := 100
    last_collection_time := none
    status := stNormal
    bin_type := "residential"
    avg_daily_waste := 0 }

/-- 51 qualifying bins in one area: one more than the query cap. -/
def cexManyBins : List Bin := List.replicate 51 cexManyBin

/-- C2 counterexample: with 51 qualifying bins in the area, the query returns
only 50 of them (`to_list(length=50)`), so its result is not the set of bins
satisfying the filter. -/
theorem priority_query_caps_at_50 :
    ¬ (getPriorityBinsForCollection 0 areaA cityC cexManyBins).Perm
      (cexManyBins.filter fun b =>
        b.area == areaA && b.city == cityC && needsCollectionQuery 0 b) := by
  intro hperm
  have hlen := hperm.length_eq
  have hfull : (cexManyBins.filter fun b =>
      b.area == areaA && b.city == cityC && needsCollectionQuery 0 b) = cexManyBins := by
    apply List.filter_eq_self.mpr
    intro a ha
    have haeq : a = cexManyBin := List.eq_of_mem_replicate ha
    subst haeq
    decide
  have hout : (getPriorityBinsForCollection 0 areaA cityC cexManyBins).length = 50 := by
    unfold getPriorityBinsForCollection
    rw [List.length_mergeSort, List.length_take, hfull]
    simp [cexManyBins]
  rw [hout, hfull] at hlen
  simp [cexManyBins] at hlen

theorem priority_bins_filter_and_sort_witness :
    (getPriorityBinsForCollection 0 areaA cityC [cexManyBin]).Perm
      ([cexManyBin].filter fun b =>
        b.area == areaA && b.city == cityC && needsCollectionQuery 0 b) ∧
    (getPriorityBinsForCollection 0 areaA cityC [cexManyBin]).Pairwise
      (fun a b => calculateRealPriority 0 b ≤ calculateRealPriority 0 a) :=
  priority_bins_filter_and_sort 0 areaA cityC [cexManyBin] (by decide)

/-! ### C5: idempotence of collection-point generation -/

theorem generateAreaBins_length (area city : String) (bts : List String) :
    (generateAreaBins area city bts).length = bts.length := by
  simp [generateAreaBins]

theorem generateAreaBins_mem_area {area city : String} {bts : List String} {b : Bin}
    (hb : b ∈ generateAreaBins area city bts) : b.area = area ∧ b.city = city := by
  unfold generateAreaBins at hb
  simp only [List.mem_map] at hb
  obtain ⟨p, _, hpe⟩ := hb
  subst hpe
  exact ⟨rfl, rfl⟩

theorem generateAreaBins_filter_self (area city : String) (bts : List String) :
    (generateAreaBins area city bts).filter
      (fun b => b.area == area && b.city == city) = generateAreaBins area city bts := by
  apply List.filter_eq_self.mpr
  intro b hb
  obtain ⟨ha, hc⟩ := generateAreaBins_mem_area hb
  simp [ha, hc]

/-- C5 amended: when bins already exist for the (area, city) pair the
generator inserts nothing and returns the existing set capped at the
100-document retrieval limit; and (for a generated batch of between 1 and 100
bins, as the generator always produces) calling the generator twice for the
same pair yields the same result the second time and leaves the stored
collection unchanged. -/
theorem bin_generation_idempotent (bts bts2 : List String) (dbBins : List Bin)
    (area city : String) (hn : 1 ≤ bts.length) (hle : bts.length ≤ 100) :
    ((dbBins.filter fun b => b.area == area && b.city == city) ≠ [] →
      createBinsForNewWorker bts dbBins area city =
        (getBinsInArea dbBins area city, dbBins)) ∧
    (createBinsForNewWorker bts2
        (createBinsForNewWorker bts dbBins area city).2 area city).1 =
      (createBinsForNewWorker bts dbBins area city).1 ∧
    (createBinsForNewWorker bts2
        (createBinsForNewWorker bts dbBins area city).2 area city).2 =
      (createBinsForNewWorker bts dbBins area city).2 := by
  constructor
  · intro hne
    have hpos : 0 < (dbBins.filter fun b => b.area == area && b.city == city).length :=
      List.length_pos.mpr hne
    unfold createBinsForNewWorker
    rw [if_pos hpos]
  · by_cases hcase : 0 < (dbBins.filter fun b => b.area == area && b.city == city).length
    · have h1 : createBinsForNewWorker bts dbBins area city =
          (getBinsInArea dbBins area city, dbBins) := by
        unfold createBinsForNewWorker
        rw [if_pos hcase]
      have h2 : createBinsForNewWorker bts2 dbBins area city =
          (getBinsInArea dbBins area city, dbBins) := by
        unfold createBinsForNewWorker
        rw [if_pos hcase]
      rw [h1]
      dsimp only
      rw [h2]
      exact ⟨rfl, rfl⟩
    · have h1 : createBinsForNewWorker bts dbBins area city =
          (generateAreaBins area city bts, dbBins ++ generateAreaBins area city bts) := by
        unfold createBinsForNewWorker
        rw [if_neg hcase]
      have hfilterdb : (dbBins.filter fun b => b.area == area && b.city == city) = [] := by
        have hlen0 : (dbBins.filter fun b => b.area == area && b.city == city).length = 0 := by
          omega
        exact List.eq_nil_of_length_eq_zero hlen0
      have hstate : ((dbBins ++ generateAreaBins area city bts).filter
          fun b => b.area == area && b.city == city) = generateAreaBins area city bts := by
        rw [List.filter_append, hfilterdb, generateAreaBins_filter_self]
        simp
      have hpos2 : 0 < ((dbBins ++ generateAreaBins area city bts).filter
          fun b => b.area == area && b.city == city).length := by
        rw [hstate, generateAreaBins_length]
        omega
      have h2 : createBinsForNewWorker bts2 (dbBins ++ generateAreaBins area city bts)
          area city =
          (getBinsInArea (dbBins ++ generateAreaBins area city bts) area city,
            dbBins ++ generateAreaBins area city bts) := by
        unfold createBinsForNewWorker
        rw [if_pos hpos2]
      have hgba : getBinsInArea (dbBins ++ generateAreaBins area city bts) area city =
          generateAreaBins area city bts := by
        unfold getBinsInArea
        rw [hstate]
        apply List.take_of_length_le
        rw [generateAreaBins_length]
        exact hle
      rw [h1]
      dsimp only
      rw [h2, hgba]
      exact ⟨rfl, rfl⟩

/-- An existing bin of the (A, C) area pair. -/
def cexAreaBin : Bin :=
  { bin_id := "B0"
    area := areaA
    city := cityC
    fill_level := 0
    last_collection_time := none
    status := stActive
    bin_type := "residential"
    avg_daily_waste := 0 }

/-- 101 existing bins for one pair: one more than the retrieval cap. -/
def cexManyExisting : List Bin := List.replicate 101 cexAreaBin

/-- C5 counterexample: with 101 existing bins for the pair, invoking the
generator indeed creates nothing, but it returns only 100 bins
(`to_list(length=100)`), not the existing set. -/
theorem existing_bins_return_capped :
    (createBinsForNewWorker [] cexManyExisting areaA cityC).1 ≠
      (cexManyExisting.filter fun b => b.area == areaA && b.city == cityC) ∧
    (createBinsForNewWorker [] cexManyExisting areaA cityC).2 = cexManyExisting := by
  refine ⟨by decide, by decide⟩

def btResidential : String := "residential"

theorem bin_generation_idempotent_witness :
    ((([] : List Bin).filter fun b => b.area == areaA && b.city == cityC) ≠ [] →
      createBinsForNewWorker [btResidential] [] areaA cityC =
        (getBinsInArea [] areaA cityC, [])) ∧
    (createBinsForNewWorker ([] : List String)
        (createBinsForNewWorker [btResidential] [] areaA cityC).2 areaA cityC).1 =
      (createBinsForNewWorker [btResidential] [] areaA cityC).1 ∧
    (createBinsForNewWorker ([] : List String)
        (createBinsForNewWorker [btResidential] [] areaA cityC).2 areaA cityC).2 =
      (createBinsForNewWorker [btResidential] [] areaA cityC).2 :=
  bin_generation_idempotent [btResidential] [] [] areaA cityC (by decide) (by decide)
